import Mathlib

/-!
Shallow embedding of `codes/models/SFTGAN_ACD_model.py` (class
`SFTGAN_ACD_Model`): the training-mode initialisation (`__init__`, lines
36-125), the training step (`optimize_parameters`, lines 150-223), the
inference step (`test`, lines 225-228) and the network-description dump
(`print_network`, lines 241-263).  Numeric tensors, autodiff and the
optimizer internals belong to the ML framework and are outside the
embedding; what is modelled is the control logic: which configuration
values are read, which loss terms are assembled with which weights, which
optimizer/network calls happen in which order, and which files are
written.
-/

namespace SFTGAN

/-- Scalar Python value as it occurs in the option dictionary: an int, a
float (modelled as a rational), a string, or `None`.  Iteration-count
options are assumed integer-valued, as in every shipped configuration. -/
inductive PyVal where
  | int (n : ℤ)
  | float (q : ℚ)
  | str (s : String)
  | pynone
  deriving DecidableEq

/-- Python truthiness of a scalar configuration value (`if v:`). -/
def PyVal.truthy : PyVal → Bool
  | .int n => n != 0
  | .float q => q != 0
  | .str s => s != ""
  | .pynone => false

/-- Numeric view of a Python value, when it is a number. -/
def PyVal.toQ? : PyVal → Option ℚ
  | .int n => some (n : ℚ)
  | .float q => some q
  | _ => Option.none

/-- Integer view of a Python value, when it is an integer. -/
def PyVal.toZ? : PyVal → Option ℤ
  | .int n => some n
  | _ => Option.none

/-- The `opt['train']` sub-dictionary, as a key/value association list. -/
def TrainOptD := List (String × PyVal)

/-- Modelled from the spec: the repository's option loader (outside this
fragment) wraps configuration dictionaries so that a missing key reads as
`None` instead of raising `KeyError`; a present key gives its value. -/
def dget (d : TrainOptD) (k : String) : PyVal :=
  match d.find? (fun p => p.1 == k) with
  | some p => p.2
  | Option.none => PyVal.pynone

/-- Python comparison `v > 0` on a configuration value, `false` when the
value is not numeric (that situation is flagged by `qErr?` instead). -/
def pyGtZero (v : PyVal) : Bool :=
  match v.toQ? with
  | some q => decide (0 < q)
  | Option.none => false

/-- The value `train_opt[k] if train_opt[k] else 0` used for the weight
decays (source lines 96 and 111). -/
def pyOrZero (v : PyVal) : PyVal :=
  if v.truthy then v else PyVal.int 0

/-- The integer value `train_opt[k] if train_opt[k] else dflt` used for
`D_update_ratio` and `D_init_iters` (source lines 70-71). -/
def intOr (v : PyVal) (dflt : ℤ) : ℤ :=
  if v.truthy then v.toZ?.getD dflt else dflt

/-- Pixel / feature criterion kind chosen by `__init__`. -/
inductive Crit where
  | l1
  | l2
  deriving DecidableEq

/-- Criterion selected for a `pixel_criterion` / `feature_criterion`
configuration value: `l1`, `l2`, or none (the `NotImplementedError` arm). -/
def critOf : PyVal → Option Crit
  | .str "l1" => some Crit.l1
  | .str "l2" => some Crit.l2
  | _ => Option.none

/-- Prefix test on character lists. -/
def isPrefixL : List Char → List Char → Bool
  | [], _ => true
  | _ :: _, [] => false
  | a :: as, b :: bs => a == b && isPrefixL as bs

/-- Substring occurrence test on character lists. -/
def containsSub (pat : List Char) : List Char → Bool
  | [] => pat.isEmpty
  | c :: rest => isPrefixL pat (c :: rest) || containsSub pat rest

/-- Python substring test `pat in k` (source line 100). -/
def strContains (k pat : String) : Bool :=
  containsSub pat.data k.data

/-- Parameter-name test of source line 100: `'SFT' in k or 'Cond' in k`. -/
def isSFTparam (k : String) : Bool :=
  strContains k "SFT" || strContains k "Cond"

/-- One `torch.optim.Adam` construction: the parameter names handed to it,
its learning rate, its weight decay and its betas. -/
structure AdamOpt where
  params : List String
  lr : ℚ
  weight_decay : PyVal
  beta1 : PyVal
  beta2 : ℚ
  deriving DecidableEq

/-- Exceptions `__init__` can raise: the two `NotImplementedError` calls of
the source (unrecognised loss criterion, non-`MultiStepLR` scheme) and a
`TypeError` for a configuration value used as a number that is not one. -/
inductive InitErr where
  | notImplementedLoss (v : PyVal)
  | notImplementedLR
  | typeError
  deriving DecidableEq

/-- State built by the training branch of `__init__` (source lines 36-125):
the chosen criteria and loss weights, the gating constants, the gradient
penalty weight when `gan_type == 'wgan-gp'`, and the three Adam
optimizers.  `l_pix_w` / `l_fea_w` hold `PyVal.pynone` when the
corresponding attribute is never assigned in the source. -/
structure InitState where
  cri_pix : Option Crit
  l_pix_w : PyVal
  cri_fea : Option Crit
  l_fea_w : PyVal
  netF_defined : Bool
  gan_type : PyVal
  l_gan_w : PyVal
  D_update_every : ℤ
  D_init_iters : ℤ
  l_gp_w : Option PyVal
  optimizer_G_SFT : AdamOpt
  optimizer_G_other : AdamOpt
  optimizer_D : AdamOpt
  num_schedulers : Nat
  deriving DecidableEq

/-- First error of two candidates, in program order. -/
def oElse (a b : Option InitErr) : Option InitErr :=
  match a with
  | some e => some e
  | Option.none => b

/-- Error raised when a value needed as a number is not numeric. -/
def qErr? (v : PyVal) : Option InitErr :=
  if v.toQ?.isSome then Option.none else some InitErr.typeError

/-- Error raised when an iteration-count option is truthy but not an
integer (Python would reject such a value at its first arithmetic use). -/
def intOptErr? (v : PyVal) : Option InitErr :=
  if v.truthy then
    (if v.toZ?.isSome then Option.none else some InitErr.typeError)
  else Option.none

/-- The `NotImplementedError('Loss type [%s] is not recognized.')` arm of
the criterion dispatch (source lines 40-45 and 54-59). -/
def critErr? (v : PyVal) : Option InitErr :=
  if (critOf v).isSome then Option.none else some (InitErr.notImplementedLoss v)

/-- Errors of the pixel-loss block (source lines 38-49). -/
def pixErr? (topt : TrainOptD) : Option InitErr :=
  oElse (qErr? (dget topt "pixel_weight"))
    (if pyGtZero (dget topt "pixel_weight") then
      critErr? (dget topt "pixel_criterion")
    else Option.none)

/-- Errors of the feature-loss block (source lines 52-63). -/
def feaErr? (topt : TrainOptD) : Option InitErr :=
  oElse (qErr? (dget topt "feature_weight"))
    (if pyGtZero (dget topt "feature_weight") then
      critErr? (dget topt "feature_criterion")
    else Option.none)

/-- Errors of the gating-constant reads and optimizer constructions
(source lines 70-71 and 93-114). -/
def optimErr? (topt : TrainOptD) : Option InitErr :=
  oElse (intOptErr? (dget topt "D_update_ratio"))
    (oElse (intOptErr? (dget topt "D_init_iters"))
      (oElse (qErr? (dget topt "lr_G"))
        (qErr? (dget topt "lr_D"))))

/-- All errors raised before the scheduler dispatch, in program order. -/
def preSchedErr? (topt : TrainOptD) : Option InitErr :=
  oElse (pixErr? topt) (oElse (feaErr? topt) (optimErr? topt))

/-- The `NotImplementedError('MultiStepLR learning rate scheme is
enough.')` arm of the scheduler dispatch (source lines 118-123). -/
def schedErr? (topt : TrainOptD) : Option InitErr :=
  if dget topt "lr_scheme" = PyVal.str "MultiStepLR" then Option.none
  else some InitErr.notImplementedLR

/-- First exception the training branch of `__init__` raises, if any. -/
def initErr? (topt : TrainOptD) : Option InitErr :=
  oElse (preSchedErr? topt) (schedErr? topt)

/-- Pixel criterion chosen by source lines 38-49: set only when
`pixel_weight > 0`, and then by `pixel_criterion`. -/
def cri_pix_of (topt : TrainOptD) : Option Crit :=
  if pyGtZero (dget topt "pixel_weight") then
    critOf (dget topt "pixel_criterion")
  else Option.none

/-- Feature criterion chosen by source lines 52-63. -/
def cri_fea_of (topt : TrainOptD) : Option Crit :=
  if pyGtZero (dget topt "feature_weight") then
    critOf (dget topt "feature_criterion")
  else Option.none

/-- State the training branch of `__init__` builds when it raises no
exception.  `gparams` / `dparams` are the names of `netG.named_parameters()`
and of `netD.parameters()`, supplied by the (external) network definitions. -/
def mkState (topt : TrainOptD) (gparams dparams : List String) : InitState :=
  let lrG : ℚ := (dget topt "lr_G").toQ?.getD 0
  let lrD : ℚ := (dget topt "lr_D").toQ?.getD 0
  let wdG := pyOrZero (dget topt "weight_decay_G")
  let wdD := pyOrZero (dget topt "weight_decay_D")
  let sft := gparams.filter isSFTparam
  let other := gparams.filter (fun k => !isSFTparam k)
  ⟨cri_pix_of topt,
    (if (cri_pix_of topt).isSome then dget topt "pixel_weight" else PyVal.pynone),
    cri_fea_of topt,
    (if (cri_fea_of topt).isSome then dget topt "feature_weight" else PyVal.pynone),
    (cri_fea_of topt).isSome,
    dget topt "gan_type",
    dget topt "gan_weight",
    intOr (dget topt "D_update_ratio") 1,
    intOr (dget topt "D_init_iters") 0,
    (if dget topt "gan_type" = PyVal.str "wgan-gp" then
        some (dget topt "gp_weigth")
      else Option.none),
    ⟨sft, lrG * 5, wdG, dget topt "beta1_G", (999 : ℚ) / 1000⟩,
    ⟨other, lrG, wdG, dget topt "beta1_G", (999 : ℚ) / 1000⟩,
    ⟨dparams, lrD, wdD, dget topt "beta1_D", (999 : ℚ) / 1000⟩,
    3⟩

/-- Training branch of `__init__` (source lines 36-125): raises the first
exception in program order, otherwise returns the built state. -/
def initTrain (topt : TrainOptD) (gparams dparams : List String) :
    Except InitErr InitState :=
  match initErr? topt with
  | some e => Except.error e
  | Option.none => Except.ok (mkState topt gparams dparams)

/-- Mode of `netG` (`nn.Module.train()` / `.eval()`). -/
inductive Mode where
  | train
  | eval
  deriving DecidableEq

/-- The three optimizers of the model. -/
inductive OptId where
  | gSFT
  | gOther
  | d
  deriving DecidableEq

/-- Tensors the step functions pass to networks: the fed inputs `var_L`,
`var_seg`, `var_cat`, `var_H`, the generated `fake_H` (possibly detached),
and the `wgan-gp` interpolation point. -/
inductive TVar where
  | var_L
  | var_seg
  | var_cat
  | var_H
  | fake_H
  | fake_H_detached
  | interp
  deriving DecidableEq

/-- Observable framework calls made by `optimize_parameters` and `test`,
in program order: optimizer calls, network forward passes (with the exact
tuple of tensors handed to `netG`), backward passes and mode switches. -/
inductive Ev where
  | zeroGrad (o : OptId)
  | forwardG (ins : List TVar)
  | forwardF (x : TVar)
  | forwardD (x : TVar)
  | backwardG
  | backwardD
  | optStep (o : OptId)
  | setMode (m : Mode)
  deriving DecidableEq

/-- Terms of the generator total loss `l_g_total`. -/
inductive GTerm where
  | pix
  | fea
  | gan
  | cls
  deriving DecidableEq

/-- Terms of the discriminator total loss `l_d_total`. -/
inductive DTerm where
  | d_real
  | d_cls_real
  | d_fake
  | d_cls_fake
  | gp
  deriving DecidableEq

/-- Outcome of one `optimize_parameters(step)` call: the framework calls
made, the generator loss terms (each with the weight it is multiplied by),
the discriminator loss terms, and the weight applied to the gradient
penalty when it is included. -/
structure StepResult where
  events : List Ev
  g_terms : List (GTerm × PyVal)
  d_terms : List DTerm
  gp_weight_used : Option PyVal
  deriving DecidableEq

/-- The generator-update gate of source lines 157 and 207:
`step % self.D_update_ratio == 0 and step > self.D_init_iters`. -/
def gUpdateCond (st : InitState) (step : ℤ) : Prop :=
  step % st.D_update_every = 0 ∧ st.D_init_iters < step

instance (st : InitState) (step : ℤ) : Decidable (gUpdateCond st step) :=
  inferInstanceAs (Decidable (step % st.D_update_every = 0 ∧ st.D_init_iters < step))

/-- One `optimize_parameters(step)` call (source lines 150-204): zero the
generator optimizers, run `netG` on `(var_L, var_seg)`; behind the update
gate assemble the weighted generator loss, backpropagate it and step the
SFT optimizer; step the other generator optimizer once `step > 20000`;
then always run the discriminator update, with the gradient penalty added
exactly when `gan_type == 'wgan-gp'`. -/
def optimize_parameters (st : InitState) (step : ℤ) : StepResult :=
  let wgan := st.gan_type = PyVal.str "wgan-gp"
  let gEvents : List Ev :=
    [Ev.zeroGrad OptId.gSFT, Ev.zeroGrad OptId.gOther,
     Ev.forwardG [TVar.var_L, TVar.var_seg]]
    ++ (if gUpdateCond st step then
          (if st.cri_fea.isSome then
            [Ev.forwardF TVar.var_H, Ev.forwardF TVar.fake_H]
          else [])
          ++ [Ev.forwardD TVar.fake_H, Ev.backwardG, Ev.optStep OptId.gSFT]
        else [])
    ++ (if 20000 < step then [Ev.optStep OptId.gOther] else [])
  let gTerms : List (GTerm × PyVal) :=
    if gUpdateCond st step then
      (if st.cri_pix.isSome then [(GTerm.pix, st.l_pix_w)] else [])
      ++ (if st.cri_fea.isSome then [(GTerm.fea, st.l_fea_w)] else [])
      ++ [(GTerm.gan, st.l_gan_w), (GTerm.cls, st.l_gan_w)]
    else []
  let dEvents : List Ev :=
    [Ev.zeroGrad OptId.d, Ev.forwardD TVar.var_H,
     Ev.forwardD TVar.fake_H_detached]
    ++ (if wgan then [Ev.forwardD TVar.interp] else [])
    ++ [Ev.backwardD, Ev.optStep OptId.d]
  let dTerms : List DTerm :=
    [DTerm.d_real, DTerm.d_cls_real, DTerm.d_fake, DTerm.d_cls_fake]
    ++ (if wgan then [DTerm.gp] else [])
  ⟨gEvents ++ dEvents, gTerms, dTerms,
    (if wgan then st.l_gp_w else Option.none)⟩

/-- The body of `test()` (source lines 225-228): switch `netG` to eval
mode, one forward pass on `(var_L, var_seg)`, switch back to train mode. -/
def test_events : List Ev :=
  [Ev.setMode Mode.eval, Ev.forwardG [TVar.var_L, TVar.var_seg],
   Ev.setMode Mode.train]

/-- Effect of one event on the mode of `netG`. -/
def applyEv (m : Mode) : Ev → Mode
  | Ev.setMode m2 => m2
  | _ => m

/-- Mode of `netG` after running a list of events from mode `m`. -/
def runMode (evs : List Ev) (m : Mode) : Mode :=
  evs.foldl applyEv m

/-- Each event paired with the mode of `netG` in effect when it runs. -/
def withModes (evs : List Ev) (m : Mode) : List (Ev × Mode) :=
  match evs with
  | [] => []
  | e :: rest => (e, m) :: withModes rest (applyEv m e)

/-- The tuples of tensors handed to `netG`, in order, in a list of events. -/
def gForwardIns (evs : List Ev) : List (List TVar) :=
  evs.filterMap (fun e =>
    match e with
    | Ev.forwardG ins => some ins
    | _ => Option.none)

/-- A filesystem effect: opening a path with mode `'w'` and writing
`content`, or opening it with mode `'a'` and appending `content`. -/
inductive FsEv where
  | write (path content : String)
  | append (path content : String)
  deriving DecidableEq

/-- Path an `FsEv` touches. -/
def FsEv.path : FsEv → String
  | .write p _ => p
  | .append p _ => p

/-- One step of `os.path.join` on POSIX: an absolute right component
replaces the result, otherwise a separator is inserted unless the left
part is empty or already ends in a slash. -/
def joinSeg (a b : List Char) : List Char :=
  if b.head? = some '/' then b
  else if a = [] ∨ a.getLast? = some '/' then a ++ b
  else a ++ '/' :: b

/-- The path `os.path.join(self.save_dir, '../', 'network.txt')` of source
line 247. -/
def network_path (save_dir : String) : String :=
  ⟨joinSeg (joinSeg save_dir.data "../".data) "network.txt".data⟩

/-- Generator message written by source line 246. -/
def gen_msg (sG : String) : String :=
  "-------------- Generator --------------\n" ++ sG ++ "\n"

/-- Discriminator message appended by source line 254. -/
def dis_msg (sD : String) : String :=
  "\n\n\n-------------- Discriminator --------------\n" ++ sD ++ "\n"

/-- Perceptual-network message appended by source line 261. -/
def per_msg (sF : String) : String :=
  "\n\n\n-------------- Perceptual Network --------------\n" ++ sF ++ "\n"

/-- Filesystem effects of `print_network` (source lines 241-263), given the
training flag, whether the feature loss is enabled (`self.cri_fea`), the
save directory and the three network description strings: in training mode
it writes the generator description to `network.txt` next to the save
directory, appends the discriminator description, and appends the
perceptual-network description exactly when the feature loss is enabled;
otherwise it only prints to stdout and touches no file. -/
def print_network (is_train cri_fea : Bool) (save_dir sG sD sF : String) :
    List FsEv :=
  if is_train then
    [FsEv.write (network_path save_dir) (gen_msg sG),
     FsEv.append (network_path save_dir) (dis_msg sD)]
    ++ (if cri_fea then [FsEv.append (network_path save_dir) (per_msg sF)] else [])
  else []

/-- Concrete generator parameter names, two in the SFT/Cond group. -/
def gparamsEx : List String :=
  ["SFT_scale_conv0.weight", "CondNet.0.bias", "HR_conv.weight"]

/-- Concrete discriminator parameter names. -/
def dparamsEx : List String := ["features.0.weight"]

/-- A concrete, fully valid training configuration (values chosen
integer-valued so that the kernel can evaluate them). -/
def toptEx : TrainOptD :=
  [("pixel_weight", PyVal.float 1), ("pixel_criterion", PyVal.str "l1"),
   ("feature_weight", PyVal.float 1), ("feature_criterion", PyVal.str "l2"),
   ("gan_type", PyVal.str "wgan-gp"), ("gan_weight", PyVal.float 1),
   ("D_update_ratio", PyVal.int 2), ("D_init_iters", PyVal.int 3),
   ("gp_weigth", PyVal.float 10),
   ("weight_decay_G", PyVal.int 0), ("lr_G", PyVal.float 1),
   ("beta1_G", PyVal.float 1),
   ("weight_decay_D", PyVal.int 0), ("lr_D", PyVal.float 1),
   ("beta1_D", PyVal.float 1),
   ("lr_scheme", PyVal.str "MultiStepLR")]

/-- The state `__init__` builds on `toptEx`. -/
def stEx : InitState := mkState toptEx gparamsEx dparamsEx

/-- A configuration with a positive pixel weight and an unrecognised
pixel criterion. -/
def toptBadPix : TrainOptD :=
  [("pixel_weight", PyVal.float 1), ("pixel_criterion", PyVal.str "huber")]

/-- A configuration with no pixel loss, a positive feature weight and an
unrecognised feature criterion. -/
def toptBadFea : TrainOptD :=
  [("pixel_weight", PyVal.int 0), ("feature_weight", PyVal.float 1),
   ("feature_criterion", PyVal.str "charbonnier")]

/-- An otherwise valid configuration whose learning-rate scheme is not
`MultiStepLR`. -/
def toptBadSched : TrainOptD :=
  [("pixel_weight", PyVal.int 0), ("feature_weight", PyVal.int 0),
   ("gan_type", PyVal.str "vanilla"), ("gan_weight", PyVal.float 1),
   ("D_update_ratio", PyVal.int 1), ("D_init_iters", PyVal.int 0),
   ("weight_decay_G", PyVal.int 0), ("lr_G", PyVal.float 1),
   ("beta1_G", PyVal.float 1),
   ("weight_decay_D", PyVal.int 0), ("lr_D", PyVal.float 1),
   ("beta1_D", PyVal.float 1),
   ("lr_scheme", PyVal.str "CosineAnnealing")]

/-- A `wgan-gp` configuration in which `D_update_ratio` is absent,
`D_init_iters` is `None`, and only the correctly spelled key `gp_weight`
is present (the misspelt key `gp_weigth` the source reads is missing). -/
def toptDef : TrainOptD :=
  [("pixel_weight", PyVal.int 0), ("feature_weight", PyVal.int 0),
   ("gan_type", PyVal.str "wgan-gp"), ("gan_weight", PyVal.float 1),
   ("D_init_iters", PyVal.pynone),
   ("gp_weight", PyVal.float 10),
   ("weight_decay_G", PyVal.int 0), ("lr_G", PyVal.float 1),
   ("beta1_G", PyVal.float 1),
   ("weight_decay_D", PyVal.int 0), ("lr_D", PyVal.float 1),
   ("beta1_D", PyVal.float 1),
   ("lr_scheme", PyVal.str "MultiStepLR")]

instance {ε α : Type} [DecidableEq ε] [DecidableEq α] : DecidableEq (Except ε α) :=
  fun a b =>
  match a, b with
  | Except.error e, Except.error f =>
      if h : e = f then Decidable.isTrue (congrArg Except.error h)
      else Decidable.isFalse (fun hh => h (Except.error.inj hh))
  | Except.ok x, Except.ok y =>
      if h : x = y then Decidable.isTrue (congrArg Except.ok h)
      else Decidable.isFalse (fun hh => h (Except.ok.inj hh))
  | Except.error _, Except.ok _ => Decidable.isFalse (fun hh => Except.noConfusion hh)
  | Except.ok _, Except.error _ => Decidable.isFalse (fun hh => Except.noConfusion hh)

theorem oElse_eq_none (a b : Option InitErr) :
    oElse a b = Option.none ↔ a = Option.none ∧ b = Option.none := by
  cases a <;> simp [oElse]

theorem initTrain_ok_iff (topt : TrainOptD) (gparams dparams : List String)
    (st : InitState) :
    initTrain topt gparams dparams = Except.ok st ↔
      initErr? topt = Option.none ∧ st = mkState topt gparams dparams := by
  unfold initTrain
  cases h : initErr? topt <;> simp [eq_comm]

theorem initTrain_toptEx :
    initTrain toptEx gparamsEx dparamsEx = Except.ok stEx := by
  unfold initTrain
  rw [show initErr? toptEx = Option.none from by decide]
  rfl

theorem initTrain_toptDef :
    initTrain toptDef [] [] = Except.ok (mkState toptDef [] []) := by
  unfold initTrain
  rw [show initErr? toptDef = Option.none from by decide]

/-- C1: in `optimize_parameters(step)` the generator loss is assembled,
backpropagated and `optimizer_G_SFT.step()` called exactly when
`step % D_update_ratio == 0 and step > D_init_iters`; on every step
failing the gate no generator loss term is computed and the SFT optimizer
is not stepped, while the discriminator `optimizer_D.step()` still runs. -/
theorem optimize_parameters_generator_gate (st : InitState) (step : ℤ) :
    ((Ev.optStep OptId.gSFT ∈ (optimize_parameters st step).events) ↔
      gUpdateCond st step)
    ∧ ((Ev.backwardG ∈ (optimize_parameters st step).events) ↔
      gUpdateCond st step)
    ∧ (¬ gUpdateCond st step → (optimize_parameters st step).g_terms = [])
    ∧ (gUpdateCond st step → (optimize_parameters st step).g_terms ≠ [])
    ∧ Ev.optStep OptId.d ∈ (optimize_parameters st step).events
    ∧ (gUpdateCond st step ↔
      (step % st.D_update_every = 0 ∧ st.D_init_iters < step)) := by
  refine ⟨?_, ?_, ?_, ?_, ?_, Iff.rfl⟩ <;>
  · by_cases hg : gUpdateCond st step <;>
    by_cases hf : st.cri_fea.isSome <;>
    by_cases hw : st.gan_type = PyVal.str "wgan-gp" <;>
    by_cases h20 : (20000 : ℤ) < step <;>
    simp [optimize_parameters, hg, hf, hw, h20]

/-- C1 witness: at the concrete state `stEx` (update ratio 2, init iters 3)
and step 4 the gate holds, the SFT optimizer steps and the discriminator
steps; the gate predicate matches the source condition. -/
theorem optimize_parameters_generator_gate_witness :
    Ev.optStep OptId.gSFT ∈ (optimize_parameters stEx 4).events
    ∧ Ev.optStep OptId.d ∈ (optimize_parameters stEx 4).events
    ∧ gUpdateCond stEx 4 :=
  ⟨(optimize_parameters_generator_gate stEx 4).1.mpr (by decide),
   (optimize_parameters_generator_gate stEx 4).2.2.2.2.1,
   by decide⟩

/-- C2: `optimizer_G_other.step()` runs exactly when `step > 20000`, a
fixed constant: the gate does not depend on the initialisation state (in
particular not on `D_init_iters` or `D_update_ratio`). -/
theorem optimizer_G_other_fixed_gate (st : InitState) (step : ℤ) :
    (Ev.optStep OptId.gOther ∈ (optimize_parameters st step).events) ↔
      20000 < step := by
  by_cases hg : gUpdateCond st step <;>
  by_cases hf : st.cri_fea.isSome <;>
  by_cases hw : st.gan_type = PyVal.str "wgan-gp" <;>
  by_cases h20 : (20000 : ℤ) < step <;>
  simp [optimize_parameters, hg, hf, hw, h20]

/-- C2 witness: at step 20001 the secondary generator optimizer steps on
the concrete state `stEx`. -/
theorem optimizer_G_other_fixed_gate_witness :
    Ev.optStep OptId.gOther ∈ (optimize_parameters stEx 20001).events :=
  (optimizer_G_other_fixed_gate stEx 20001).mpr (by decide)

/-- C8: every `optimize_parameters(step)` call performs exactly one
discriminator update regardless of `step`: one `optimizer_D.zero_grad()`,
forward passes of `netD` on the real data and on the detached fake data,
all four real/fake adversarial and classification terms in the
discriminator loss, one backward pass and one `optimizer_D.step()`. -/
theorem discriminator_update_unconditional (st : InitState) (step : ℤ) :
    (optimize_parameters st step).events.count (Ev.optStep OptId.d) = 1
    ∧ (optimize_parameters st step).events.count (Ev.zeroGrad OptId.d) = 1
    ∧ (optimize_parameters st step).events.count Ev.backwardD = 1
    ∧ Ev.forwardD TVar.var_H ∈ (optimize_parameters st step).events
    ∧ Ev.forwardD TVar.fake_H_detached ∈ (optimize_parameters st step).events
    ∧ DTerm.d_real ∈ (optimize_parameters st step).d_terms
    ∧ DTerm.d_cls_real ∈ (optimize_parameters st step).d_terms
    ∧ DTerm.d_fake ∈ (optimize_parameters st step).d_terms
    ∧ DTerm.d_cls_fake ∈ (optimize_parameters st step).d_terms := by
  by_cases hg : gUpdateCond st step <;>
  by_cases hf : st.cri_fea.isSome <;>
  by_cases hw : st.gan_type = PyVal.str "wgan-gp" <;>
  by_cases h20 : (20000 : ℤ) < step <;>
  simp [optimize_parameters, hg, hf, hw, h20, List.count_append,
    List.count_cons, List.count_nil]

/-- C8 witness: one discriminator step happens at the concrete state
`stEx` and step 1 (a step failing the generator gate). -/
theorem discriminator_update_unconditional_witness :
    (optimize_parameters stEx 1).events.count (Ev.optStep OptId.d) = 1
    ∧ Ev.forwardD TVar.fake_H_detached ∈ (optimize_parameters stEx 1).events :=
  ⟨(discriminator_update_unconditional stEx 1).1,
   (discriminator_update_unconditional stEx 1).2.2.2.2.1⟩

/-- C9: `test()` switches `netG` to eval mode, runs the forward pass in
eval mode, and switches `netG` back to train mode before returning;
starting from train mode (and even from eval mode) it ends in train mode,
so the invariant that `netG` is training between public operations is
preserved. -/
theorem test_restores_train_mode :
    runMode test_events Mode.train = Mode.train
    ∧ (Ev.forwardG [TVar.var_L, TVar.var_seg], Mode.eval) ∈
        withModes test_events Mode.train
    ∧ runMode test_events Mode.eval = Mode.train := by
  decide

/-- C6 counterexample: the forward passes of `netG` do not take the
category label.  In `test()` the single generator forward pass receives
exactly `(var_L, var_seg)`, and likewise in a concrete
`optimize_parameters` call; `var_cat` is not among the inputs. -/
theorem generator_forward_without_category :
    gForwardIns test_events = [[TVar.var_L, TVar.var_seg]]
    ∧ gForwardIns (optimize_parameters stEx 4).events =
        [[TVar.var_L, TVar.var_seg]]
    ∧ TVar.var_cat ∉ [TVar.var_L, TVar.var_seg] := by
  decide

/-- C6 amended: every forward pass of the generator, in both
`optimize_parameters` and `test`, takes exactly the low-resolution image
and the segmentation map `(var_L, var_seg)` as its input tuple; the
category label is not an input of the generator. -/
theorem generator_forward_inputs (st : InitState) (step : ℤ) :
    gForwardIns (optimize_parameters st step).events =
      [[TVar.var_L, TVar.var_seg]]
    ∧ gForwardIns test_events = [[TVar.var_L, TVar.var_seg]]
    ∧ TVar.var_cat ∉ [TVar.var_L, TVar.var_seg] := by
  refine ⟨?_, by decide, by decide⟩
  by_cases hg : gUpdateCond st step <;>
  by_cases hf : st.cri_fea.isSome <;>
  by_cases hw : st.gan_type = PyVal.str "wgan-gp" <;>
  by_cases h20 : (20000 : ℤ) < step <;>
  simp [optimize_parameters, gForwardIns, hg, hf, hw, h20]

/-- C6 amended witness: the generator forward inputs at the concrete state
`stEx` and step 7 are exactly `(var_L, var_seg)`. -/
theorem generator_forward_inputs_witness :
    gForwardIns (optimize_parameters stEx 7).events =
      [[TVar.var_L, TVar.var_seg]] :=
  (generator_forward_inputs stEx 7).1

theorem mkState_cri_pix (topt : TrainOptD) (gparams dparams : List String) :
    (mkState topt gparams dparams).cri_pix = cri_pix_of topt := rfl

theorem mkState_cri_fea (topt : TrainOptD) (gparams dparams : List String) :
    (mkState topt gparams dparams).cri_fea = cri_fea_of topt := rfl

theorem mkState_l_pix_w (topt : TrainOptD) (gparams dparams : List String) :
    (mkState topt gparams dparams).l_pix_w =
      (if (cri_pix_of topt).isSome then dget topt "pixel_weight"
       else PyVal.pynone) := rfl

theorem mkState_l_fea_w (topt : TrainOptD) (gparams dparams : List String) :
    (mkState topt gparams dparams).l_fea_w =
      (if (cri_fea_of topt).isSome then dget topt "feature_weight"
       else PyVal.pynone) := rfl

theorem mkState_gan_type (topt : TrainOptD) (gparams dparams : List String) :
    (mkState topt gparams dparams).gan_type = dget topt "gan_type" := rfl

theorem mkState_l_gan_w (topt : TrainOptD) (gparams dparams : List String) :
    (mkState topt gparams dparams).l_gan_w = dget topt "gan_weight" := rfl

theorem mkState_l_gp_w (topt : TrainOptD) (gparams dparams : List String) :
    (mkState topt gparams dparams).l_gp_w =
      (if dget topt "gan_type" = PyVal.str "wgan-gp" then
        some (dget topt "gp_weigth")
      else Option.none) := rfl

theorem pyGtZero_isSome (v : PyVal) (h : pyGtZero v = true) : v.toQ?.isSome := by
  cases hv : v.toQ? <;> simp [pyGtZero, hv] at h ⊢

theorem qErr?_eq_none (v : PyVal) :
    qErr? v = Option.none ↔ v.toQ?.isSome := by
  unfold qErr?
  split <;> simp_all

theorem critErr?_eq_none (v : PyVal) :
    critErr? v = Option.none ↔ (critOf v).isSome := by
  unfold critErr?
  split <;> simp_all

theorem cri_pix_of_isSome (topt : TrainOptD) (hp : pixErr? topt = Option.none) :
    (cri_pix_of topt).isSome = pyGtZero (dget topt "pixel_weight") := by
  by_cases h : pyGtZero (dget topt "pixel_weight") = true
  · simp only [pixErr?, oElse_eq_none, h, if_true] at hp
    simp [cri_pix_of, h, (critErr?_eq_none _).mp hp.2]
  · simp [cri_pix_of, h]

theorem cri_fea_of_isSome (topt : TrainOptD) (hf : feaErr? topt = Option.none) :
    (cri_fea_of topt).isSome = pyGtZero (dget topt "feature_weight") := by
  by_cases h : pyGtZero (dget topt "feature_weight") = true
  · simp only [feaErr?, oElse_eq_none, h, if_true] at hf
    simp [cri_fea_of, h, (critErr?_eq_none _).mp hf.2]
  · simp [cri_fea_of, h]

/-- C3: the training-mode initialisation splits the generator parameters
by name: those containing `SFT` or `Cond` go to an Adam optimizer with
learning rate `lr_G * 5`, the remaining ones to an Adam optimizer with
learning rate `lr_G`; the two groups share the same weight decay `wd_G`
and the same betas `(beta1_G, 0.999)`. -/
theorem optimizer_param_groups (topt : TrainOptD) (gparams dparams : List String)
    (st : InitState) (h : initTrain topt gparams dparams = Except.ok st) :
    st.optimizer_G_SFT.params = gparams.filter isSFTparam
    ∧ st.optimizer_G_other.params = gparams.filter (fun k => !isSFTparam k)
    ∧ (∀ k, k ∈ gparams → isSFTparam k = true → k ∈ st.optimizer_G_SFT.params)
    ∧ (∀ k, k ∈ gparams → isSFTparam k = false → k ∈ st.optimizer_G_other.params)
    ∧ (dget topt "lr_G").toQ? = some st.optimizer_G_other.lr
    ∧ st.optimizer_G_SFT.lr = st.optimizer_G_other.lr * 5
    ∧ st.optimizer_G_SFT.weight_decay = pyOrZero (dget topt "weight_decay_G")
    ∧ st.optimizer_G_other.weight_decay = pyOrZero (dget topt "weight_decay_G")
    ∧ st.optimizer_G_SFT.beta1 = dget topt "beta1_G"
    ∧ st.optimizer_G_other.beta1 = dget topt "beta1_G"
    ∧ st.optimizer_G_SFT.beta2 = (999 : ℚ) / 1000
    ∧ st.optimizer_G_other.beta2 = (999 : ℚ) / 1000 := by
  obtain ⟨herr, hst⟩ := (initTrain_ok_iff _ _ _ _).mp h
  subst hst
  simp only [initErr?, preSchedErr?, optimErr?, oElse_eq_none] at herr
  obtain ⟨⟨_, _, _, _, hlrG, _⟩, _⟩ := herr
  obtain ⟨q, hq⟩ := Option.isSome_iff_exists.mp ((qErr?_eq_none _).mp hlrG)
  simp [mkState, hq, List.mem_filter]
  exact ⟨fun k hk hs => ⟨hk, hs⟩, fun k hk hs => ⟨hk, hs⟩⟩

/-- C3 witness: on the concrete configuration `toptEx` and parameter names
`gparamsEx`, the SFT group is exactly the two `SFT`/`Cond` parameters and
its learning rate is five times the other group's. -/
theorem optimizer_param_groups_witness :
    stEx.optimizer_G_SFT.params = ["SFT_scale_conv0.weight", "CondNet.0.bias"]
    ∧ stEx.optimizer_G_other.params = ["HR_conv.weight"]
    ∧ stEx.optimizer_G_SFT.lr = stEx.optimizer_G_other.lr * 5 := by
  have h := optimizer_param_groups toptEx gparamsEx dparamsEx stEx initTrain_toptEx
  exact ⟨h.1.trans (by decide), h.2.1.trans (by decide), h.2.2.2.2.2.1⟩

/-- C4: training-mode initialisation raises an unguarded exception on
unrecognised configuration string values — when `pixel_weight > 0` and
`pixel_criterion` is neither `l1` nor `l2`, when the pixel block passed
and `feature_weight > 0` with `feature_criterion` neither `l1` nor `l2`,
and when everything before the scheduler dispatch passed but `lr_scheme`
is not `MultiStepLR`; in each case `initTrain` returns that error and
runs no recovery. -/
theorem init_unrecognized_config_errors (topt : TrainOptD)
    (gparams dparams : List String) :
    (pyGtZero (dget topt "pixel_weight") = true →
      critOf (dget topt "pixel_criterion") = Option.none →
      initTrain topt gparams dparams =
        Except.error (InitErr.notImplementedLoss (dget topt "pixel_criterion")))
    ∧ (pixErr? topt = Option.none →
      pyGtZero (dget topt "feature_weight") = true →
      critOf (dget topt "feature_criterion") = Option.none →
      initTrain topt gparams dparams =
        Except.error (InitErr.notImplementedLoss (dget topt "feature_criterion")))
    ∧ (preSchedErr? topt = Option.none →
      ¬ dget topt "lr_scheme" = PyVal.str "MultiStepLR" →
      initTrain topt gparams dparams = Except.error InitErr.notImplementedLR) := by
  refine ⟨fun h1 h2 => ?_, fun h0 h1 h2 => ?_, fun h0 h1 => ?_⟩
  · have hq : (dget topt "pixel_weight").toQ?.isSome := pyGtZero_isSome _ h1
    simp [initTrain, initErr?, preSchedErr?, pixErr?, oElse, qErr?, hq, h1,
      critErr?, h2]
  · have hq : (dget topt "feature_weight").toQ?.isSome := pyGtZero_isSome _ h1
    simp [initTrain, initErr?, preSchedErr?, feaErr?, oElse, qErr?, hq, h0, h1,
      critErr?, h2]
  · simp [initTrain, initErr?, oElse, schedErr?, h0, h1]

/-- C4 witness: the three concrete misconfigurations each produce the
corresponding exception. -/
theorem init_unrecognized_config_errors_witness :
    initTrain toptBadPix [] [] =
      Except.error (InitErr.notImplementedLoss (PyVal.str "huber"))
    ∧ initTrain toptBadFea [] [] =
      Except.error (InitErr.notImplementedLoss (PyVal.str "charbonnier"))
    ∧ initTrain toptBadSched [] [] = Except.error InitErr.notImplementedLR := by
  refine ⟨?_, ?_, ?_⟩
  · exact (init_unrecognized_config_errors toptBadPix [] []).1
      (by decide) (by decide)
  · exact (init_unrecognized_config_errors toptBadFea [] []).2.1
      (by decide) (by decide) (by decide)
  · exact (init_unrecognized_config_errors toptBadSched [] []).2.2
      (by decide) (by decide)

/-- C5: on a generator-update step the pixel term is in the generator
loss exactly when `pixel_weight > 0` (weighted by `pixel_weight`), the
feature term exactly when `feature_weight > 0` (weighted by
`feature_weight`), the adversarial and classification terms are always
included (both weighted by `gan_weight`); the gradient penalty is in the
discriminator loss exactly when `gan_type == 'wgan-gp'`, weighted by the
configured gradient-penalty weight. -/
theorem loss_term_inclusion (topt : TrainOptD) (gparams dparams : List String)
    (st : InitState) (step : ℤ)
    (h : initTrain topt gparams dparams = Except.ok st)
    (hg : gUpdateCond st step) :
    ((∃ w, (GTerm.pix, w) ∈ (optimize_parameters st step).g_terms) ↔
      pyGtZero (dget topt "pixel_weight") = true)
    ∧ (pyGtZero (dget topt "pixel_weight") = true →
      (GTerm.pix, dget topt "pixel_weight") ∈ (optimize_parameters st step).g_terms)
    ∧ ((∃ w, (GTerm.fea, w) ∈ (optimize_parameters st step).g_terms) ↔
      pyGtZero (dget topt "feature_weight") = true)
    ∧ (pyGtZero (dget topt "feature_weight") = true →
      (GTerm.fea, dget topt "feature_weight") ∈ (optimize_parameters st step).g_terms)
    ∧ (GTerm.gan, dget topt "gan_weight") ∈ (optimize_parameters st step).g_terms
    ∧ (GTerm.cls, dget topt "gan_weight") ∈ (optimize_parameters st step).g_terms
    ∧ ((DTerm.gp ∈ (optimize_parameters st step).d_terms) ↔
      dget topt "gan_type" = PyVal.str "wgan-gp")
    ∧ (dget topt "gan_type" = PyVal.str "wgan-gp" →
      (optimize_parameters st step).gp_weight_used =
        some (dget topt "gp_weigth")) := by
  obtain ⟨herr, hst⟩ := (initTrain_ok_iff _ _ _ _).mp h
  subst hst
  simp only [initErr?, preSchedErr?, oElse_eq_none] at herr
  obtain ⟨⟨hp, hfe, _⟩, _⟩ := herr
  have hpix := cri_pix_of_isSome topt hp
  have hfea := cri_fea_of_isSome topt hfe
  by_cases h1 : pyGtZero (dget topt "pixel_weight") = true <;>
  by_cases h2 : pyGtZero (dget topt "feature_weight") = true <;>
  by_cases h3 : dget topt "gan_type" = PyVal.str "wgan-gp" <;>
  simp [optimize_parameters, hg, h1, h2, h3, hpix, hfea, mkState_cri_pix,
    mkState_cri_fea, mkState_l_pix_w, mkState_l_fea_w, mkState_gan_type,
    mkState_l_gan_w, mkState_l_gp_w]

/-- C5 witness: on the concrete state `stEx` at the generator-update step
4 the pixel term carries weight 1 and the gradient penalty is included
with the weight read from `gp_weigth`. -/
theorem loss_term_inclusion_witness :
    (GTerm.pix, PyVal.float 1) ∈ (optimize_parameters stEx 4).g_terms
    ∧ DTerm.gp ∈ (optimize_parameters stEx 4).d_terms
    ∧ (optimize_parameters stEx 4).gp_weight_used = some (PyVal.float 10) := by
  have h := loss_term_inclusion toptEx gparamsEx dparamsEx stEx 4
    initTrain_toptEx (by decide)
  exact ⟨h.2.1 (by decide), (h.2.2.2.2.2.2.1).mpr (by decide),
    h.2.2.2.2.2.2.2 (by decide)⟩

/-- C10: when `D_update_ratio` is absent or falsy it defaults to 1, and
when `D_init_iters` is absent or falsy it defaults to 0, so under these
defaults the generator-update gate holds for every step >= 1; and with
`gan_type == 'wgan-gp'` the gradient-penalty weight is read from the
configuration key `gp_weigth` (the misspelling in the source), not from
`gp_weight`. -/
theorem default_gates_and_gp_key (topt : TrainOptD) (gparams dparams : List String)
    (st : InitState) (step : ℤ)
    (h : initTrain topt gparams dparams = Except.ok st)
    (h1 : (dget topt "D_update_ratio").truthy = false)
    (h2 : (dget topt "D_init_iters").truthy = false) :
    st.D_update_every = 1
    ∧ st.D_init_iters = 0
    ∧ (1 ≤ step → gUpdateCond st step)
    ∧ (dget topt "gan_type" = PyVal.str "wgan-gp" →
        st.l_gp_w = some (dget topt "gp_weigth")) := by
  obtain ⟨_, hst⟩ := (initTrain_ok_iff _ _ _ _).mp h
  subst hst
  have hd : (mkState topt gparams dparams).D_update_every = 1 := by
    simp [mkState, intOr, h1]
  have hi : (mkState topt gparams dparams).D_init_iters = 0 := by
    simp [mkState, intOr, h2]
  refine ⟨hd, hi, fun hs => ⟨?_, ?_⟩, fun hw => by simp [mkState, hw]⟩
  · rw [hd]
    exact Int.emod_one step
  · rw [hi]
    omega

/-- C10 witness: on `toptDef` (no `D_update_ratio` key, `D_init_iters`
set to `None`, only the correctly spelled `gp_weight` key present) the
gate constants default to 1 and 0, the gate holds at step 1, and the
gradient-penalty weight comes out as `None` because the source reads the
misspelt key `gp_weigth`. -/
theorem default_gates_and_gp_key_witness :
    (mkState toptDef [] []).D_update_every = 1
    ∧ (mkState toptDef [] []).D_init_iters = 0
    ∧ gUpdateCond (mkState toptDef [] []) 1
    ∧ (mkState toptDef [] []).l_gp_w = some PyVal.pynone := by
  have h := default_gates_and_gp_key toptDef [] [] (mkState toptDef [] []) 1
    initTrain_toptDef (by decide) (by decide)
  exact ⟨h.1, h.2.1, h.2.2.1 (by decide),
    (h.2.2.2 (by decide)).trans (by decide)⟩

theorem network_path_next_to_save_dir (save_dir : String)
    (hnil : save_dir.data ≠ []) (hsl : save_dir.data.getLast? ≠ some '/') :
    (network_path save_dir).data = save_dir.data ++ "/../network.txt".data := by
  have s1 : joinSeg save_dir.data "../".data = save_dir.data ++ '/' :: "../".data := by
    unfold joinSeg
    rw [if_neg (by decide), if_neg (by simp [hnil, hsl])]
  show joinSeg (joinSeg save_dir.data "../".data) "network.txt".data = _
  rw [s1]
  unfold joinSeg
  rw [if_neg (by decide)]
  rw [if_pos (Or.inr (by rw [List.getLast?_append_cons]; decide))]
  rw [List.append_assoc]
  exact congrArg (fun l => save_dir.data ++ l) (by decide)

/-- C7: in training mode `print_network` makes exactly these filesystem
effects — it writes the generator description to the single path
`os.path.join(save_dir, '../', 'network.txt')` (that is,
`save_dir/../network.txt`, next to the save directory), then appends the
discriminator description, then appends the perceptual-network
description exactly when the feature loss is enabled; every effect
targets that one path, and outside training mode no file is touched. -/
theorem print_network_file_effects (cri_fea : Bool) (save_dir sG sD sF : String)
    (hnil : save_dir.data ≠ []) (hsl : save_dir.data.getLast? ≠ some '/') :
    (∀ e ∈ print_network true cri_fea save_dir sG sD sF,
      FsEv.path e = network_path save_dir)
    ∧ (print_network true cri_fea save_dir sG sD sF).head? =
        some (FsEv.write (network_path save_dir) (gen_msg sG))
    ∧ (print_network true cri_fea save_dir sG sD sF)[1]? =
        some (FsEv.append (network_path save_dir) (dis_msg sD))
    ∧ (print_network true cri_fea save_dir sG sD sF)[2]? =
        (if cri_fea then some (FsEv.append (network_path save_dir) (per_msg sF))
         else Option.none)
    ∧ (print_network true cri_fea save_dir sG sD sF).length =
        (if cri_fea then 3 else 2)
    ∧ print_network false cri_fea save_dir sG sD sF = []
    ∧ (network_path save_dir).data = save_dir.data ++ "/../network.txt".data := by
  refine ⟨?_, ?_, ?_, ?_, ?_, ?_, network_path_next_to_save_dir save_dir hnil hsl⟩ <;>
  cases cri_fea <;> simp [print_network, FsEv.path]

/-- C7 witness: with save directory `experiments/SFTGAN` and the feature
loss enabled, the write goes to `experiments/SFTGAN/../network.txt`, the
first effect is the generator write, and exactly three effects happen. -/
theorem print_network_file_effects_witness :
    (network_path "experiments/SFTGAN").data =
      "experiments/SFTGAN".data ++ "/../network.txt".data
    ∧ (print_network true true "experiments/SFTGAN" "G" "D" "F").head? =
      some (FsEv.write (network_path "experiments/SFTGAN") (gen_msg "G"))
    ∧ (print_network true true "experiments/SFTGAN" "G" "D" "F").length = 3 := by
  have h := print_network_file_effects true "experiments/SFTGAN" "G" "D" "F"
    (by decide) (by decide)
  exact ⟨h.2.2.2.2.2.2, h.2.1, h.2.2.2.2.1.trans (by decide)⟩

end SFTGAN
